import Mathlib

/-!
Verification of the document text extractor in `src/app.py`.

The program's one operation is `read_pdf(file)`: it parses the uploaded
binary stream with the external word-processing library (`docx.Document`),
joins the texts of all paragraphs with a single newline, and on any
ordinary exception returns the exception's textual description instead of
raising.  The external parser is not part of this repository, so it is
embedded as an abstract parameter: a function from the byte content read
from the stream to a parse outcome (a parsed document, an ordinary
exception carrying its message, or an escaping failure outside the
ordinary exception hierarchy, which the source's handler does not cover).
-/

/-- A paragraph of a parsed word-processing document; `text` is its plain
text, as exposed by the parsing library for each paragraph object. -/
structure Paragraph where
  text : String
deriving DecidableEq

/-- A parsed word-processing document: an ordered sequence of paragraphs,
as exposed by the parsing library. -/
structure Docx where
  paragraphs : List Paragraph
deriving DecidableEq

/-- Outcome of handing a byte stream to the external parsing library:
either a parsed document, a failure in the ordinary exception class
(carrying the exception's textual description, `str(e)`), or a failure
outside the ordinary exception class (such as a base-level interpreter
exit), which the handler in the source does not catch. -/
inductive ParseOutcome where
  | ok : Docx → ParseOutcome
  | exn : String → ParseOutcome
  | baseExn : String → ParseOutcome
deriving DecidableEq

/-- The abstract external parser: a function of the byte content only
(the library reads the stream's remaining bytes and is deterministic in
them). -/
def DocxParser : Type := List Nat → ParseOutcome

/-- An uploaded binary stream: an identity tag (two independently
constructed stream objects differ here), its byte content, and the
current read position. -/
structure FileStream where
  id : Nat
  content : List Nat
  pos : Nat
deriving DecidableEq

/-- The bytes a full read of the stream returns: everything from the
current position on. -/
def FileStream.readBytes (s : FileStream) : List Nat :=
  s.content.drop s.pos

/-- Rewinding a stream to the start, modelling a stream that can be
re-read after being consumed. -/
def FileStream.rewind (s : FileStream) : FileStream :=
  { s with pos := 0 }

/-- Python's `'\n'.join`: the texts joined with a single newline between
consecutive elements. -/
def joinLines : List String → String
  | [] => ""
  | [t] => t
  | t :: t2 :: ts => t ++ "\n" ++ joinLines (t2 :: ts)

/-- The extraction operation `read_pdf` of `src/app.py`, with the external
parsing library abstracted as the `Document` parameter.  On a parsed
document it collects `paragraph.text` for every paragraph in order and
joins them with `'\n'`; an ordinary exception is caught and its message
returned as the normal result; a failure outside the ordinary exception
class escapes the handler (modelled as `Except.error`). -/
def read_pdf (Document : DocxParser) (file : FileStream) : Except String String :=
  match Document file.readBytes with
  | ParseOutcome.ok doc => Except.ok (joinLines (doc.paragraphs.map Paragraph.text))
  | ParseOutcome.exn e => Except.ok e
  | ParseOutcome.baseExn e => Except.error e

/-- Running `read_pdf` together with its effect on the stream: the parse
reads the stream to its end, so the returned stream is exhausted. -/
def read_pdf_run (Document : DocxParser) (file : FileStream) :
    Except String String × FileStream :=
  (read_pdf Document file, { file with pos := file.content.length })

/-- The two file extensions the upload widget accepts
(`type=["pdf", "docx"]` in the source). -/
def accepted_types : List String := ["pdf", "docx"]

/-- An uploaded file as the upload widget hands it over: a declared
extension (informational only) and the underlying binary stream. -/
structure UploadedFile where
  ext : String
  stream : FileStream

/-- The glue around `read_pdf` in the source: if the declared extension is
one of the accepted values the upload goes through and `read_pdf` runs on
the stream; otherwise no extraction happens. -/
def app_handle (Document : DocxParser) (u : UploadedFile) :
    Option (Except String String) :=
  if u.ext ∈ accepted_types then some (read_pdf Document u.stream) else none

/-- Splitting a character list at every occurrence of `c`; the list of
segments is never empty, and an empty input gives one empty segment. -/
def splitOnChar (c : Char) : List Char → List (List Char)
  | [] => [[]]
  | x :: xs =>
    match splitOnChar c xs with
    | [] => [[]]
    | seg :: rest => if x = c then [] :: seg :: rest else (x :: seg) :: rest

/-- The newline-separated segments of a string. -/
def stringSegments (s : String) : List String :=
  (splitOnChar '\n' s.data).map String.mk

/-- `joinLines` at the level of character lists, with an arbitrary
separator character. -/
def joinData (c : Char) : List (List Char) → List Char
  | [] => []
  | [t] => t
  | t :: t2 :: ts => t ++ c :: joinData c (t2 :: ts)

theorem splitOnChar_ne_nil (c : Char) (l : List Char) : splitOnChar c l ≠ [] := by
  cases l with
  | nil => simp [splitOnChar]
  | cons x xs =>
    simp only [splitOnChar]
    cases splitOnChar c xs with
    | nil => simp
    | cons seg rest =>
      by_cases h : x = c <;> simp [h]

theorem splitOnChar_of_not_mem (c : Char) (a : List Char) (h : c ∉ a) :
    splitOnChar c a = [a] := by
  induction a with
  | nil => rfl
  | cons x xs ih =>
    simp only [List.mem_cons, not_or] at h
    have hx : ¬ x = c := fun hc => h.1 hc.symm
    simp [splitOnChar, ih h.2, hx]

theorem splitOnChar_append (c : Char) (a l : List Char) (h : c ∉ a) :
    splitOnChar c (a ++ c :: l) = a :: splitOnChar c l := by
  induction a with
  | nil =>
    simp only [List.nil_append, splitOnChar]
    cases hs : splitOnChar c l with
    | nil => exact absurd hs (splitOnChar_ne_nil c l)
    | cons seg rest => simp
  | cons x xs ih =>
    simp only [List.mem_cons, not_or] at h
    have hx : ¬ x = c := fun hc => h.1 hc.symm
    simp only [List.cons_append, splitOnChar]
    rw [List.append_eq, ih h.2]
    simp [hx]

theorem splitOnChar_joinData (c : Char) (ls : List (List Char))
    (hne : ls ≠ []) (hc : ∀ a ∈ ls, c ∉ a) :
    splitOnChar c (joinData c ls) = ls := by
  induction ls with
  | nil => exact absurd rfl hne
  | cons a tail ih =>
    cases tail with
    | nil =>
      exact splitOnChar_of_not_mem c a (hc a (List.mem_cons_self a []))
    | cons b rest =>
      have ha : c ∉ a := hc a (List.mem_cons_self a (b :: rest))
      have htail : ∀ x ∈ b :: rest, c ∉ x := fun x hx => hc x (List.mem_cons_of_mem a hx)
      simp only [joinData, splitOnChar_append c a _ ha]
      rw [ih (by simp) htail]

theorem data_append (a b : String) : (a ++ b).data = a.data ++ b.data := by
  cases a
  cases b
  rfl

theorem joinLines_data (ts : List String) :
    (joinLines ts).data = joinData '\n' (ts.map String.data) := by
  induction ts with
  | nil => rfl
  | cons t tail ih =>
    cases tail with
    | nil => rfl
    | cons t2 rest =>
      simp only [joinLines, List.map, joinData, data_append, ih]
      simp [List.append_assoc]

theorem mk_data (t : String) : String.mk t.data = t := by
  cases t
  rfl

theorem stringSegments_joinLines (ts : List String) (hne : ts ≠ [])
    (hc : ∀ t ∈ ts, '\n' ∉ t.data) :
    stringSegments (joinLines ts) = ts := by
  unfold stringSegments
  rw [joinLines_data, splitOnChar_joinData '\n' (ts.map String.data)
    (by simpa using hne) (by simpa using hc)]
  rw [List.map_map]
  have hid : ∀ t ∈ ts, (String.mk ∘ String.data) t = id t := fun t _ => mk_data t
  rw [List.map_congr_left hid, List.map_id]

/-- A stream holding bytes that are not a valid document (the bytes of a
plain-text file). -/
def streamC1 : FileStream := ⟨0, [104, 101, 108, 108, 111], 0⟩

/-- A parser behaviour on unparseable bytes: the ordinary exception the
library raises when the stream is not a zip container, with its usual
non-empty message. -/
def parseC1 : DocxParser := fun _ => ParseOutcome.exn "File is not a zip file"

/-- Claim C1: on an input stream the parser rejects with an ordinary
exception (whose textual description, as the library produces it, is
non-empty), `read_pdf` catches the failure, propagates no exception, and
returns that non-empty description as its normal return value. -/
theorem read_pdf_fail_soft (Document : DocxParser) (s : FileStream) (m : String)
    (h : Document s.readBytes = ParseOutcome.exn m) (hm : m ≠ "") :
    ∃ t, read_pdf Document s = Except.ok t ∧ t ≠ "" ∧ t = m := by
  refine ⟨m, ?_, hm, rfl⟩
  unfold read_pdf
  rw [h]

/-- Claim C1, witness: the theorem applied to a concrete unparseable
stream and the parser's concrete rejection. -/
theorem read_pdf_fail_soft_witness :
    ∃ t, read_pdf parseC1 streamC1 = Except.ok t ∧ t ≠ "" ∧
      t = "File is not a zip file" :=
  read_pdf_fail_soft parseC1 streamC1 "File is not a zip file" rfl (by decide)

/-- A stream whose bytes parse as the document with paragraph texts
`["Hello", "", "World"]`. -/
def streamC2 : FileStream := ⟨0, [80, 75, 3, 4], 0⟩

/-- A parser behaviour producing the document with paragraph texts
`["Hello", "", "World"]`. -/
def parseC2 : DocxParser := fun _ => ParseOutcome.ok ⟨[⟨"Hello"⟩, ⟨""⟩, ⟨"World"⟩]⟩

/-- Claim C2: on a well-formed document whose paragraphs have texts
`["Hello", "", "World"]` in that order, `read_pdf` returns exactly
`"Hello\n\nWorld"`. -/
theorem read_pdf_hello_world (Document : DocxParser) (s : FileStream)
    (h : Document s.readBytes = ParseOutcome.ok ⟨[⟨"Hello"⟩, ⟨""⟩, ⟨"World"⟩]⟩) :
    read_pdf Document s = Except.ok "Hello\n\nWorld" := by
  unfold read_pdf
  rw [h]
  rfl

/-- Claim C2, witness: the theorem applied at the concrete stream. -/
theorem read_pdf_hello_world_witness :
    read_pdf parseC2 streamC2 = Except.ok "Hello\n\nWorld" :=
  read_pdf_hello_world parseC2 streamC2 rfl

/-- A stream for the C3 counterexample. -/
def streamC3cex : FileStream := ⟨0, [1], 0⟩

/-- A parser behaviour producing a document with a single paragraph whose
text itself contains a newline (the library renders an in-paragraph line
break as a newline in the paragraph text). -/
def parseC3cex : DocxParser := fun _ => ParseOutcome.ok ⟨[⟨"a\nb"⟩]⟩

/-- Claim C3, counterexample: for the one-paragraph document whose
paragraph text is `"a\nb"`, the output has two newline-separated
segments, not one, and its segment list differs from the paragraph-text
list. -/
theorem read_pdf_segments_cex :
    read_pdf parseC3cex streamC3cex = Except.ok "a\nb" ∧
    (Docx.paragraphs ⟨[⟨"a\nb"⟩]⟩).length = 1 ∧
    (stringSegments "a\nb").length = 2 ∧
    stringSegments "a\nb" ≠ ["a\nb"] := by
  refine ⟨rfl, rfl, by decide, by decide⟩

/-- Claim C3 (amended): for a well-formed document with at least one
paragraph, none of whose paragraph texts contains a newline character,
the output of `read_pdf` splits at newlines into exactly the list of
paragraph texts, in document order. -/
theorem read_pdf_segments (Document : DocxParser) (s : FileStream) (doc : Docx)
    (h : Document s.readBytes = ParseOutcome.ok doc)
    (hne : doc.paragraphs ≠ [])
    (hnl : ∀ p ∈ doc.paragraphs, '\n' ∉ p.text.data) :
    read_pdf Document s = Except.ok (joinLines (doc.paragraphs.map Paragraph.text)) ∧
    stringSegments (joinLines (doc.paragraphs.map Paragraph.text)) =
      doc.paragraphs.map Paragraph.text := by
  constructor
  · unfold read_pdf
    rw [h]
  · refine stringSegments_joinLines _ (by simpa using hne) ?_
    intro t ht
    simp only [List.mem_map] at ht
    obtain ⟨p, hp, rfl⟩ := ht
    exact hnl p hp

/-- A stream for the C3 witness. -/
def streamC3 : FileStream := ⟨0, [2], 0⟩

/-- A parser behaviour producing a two-paragraph document with
newline-free texts. -/
def parseC3 : DocxParser := fun _ => ParseOutcome.ok ⟨[⟨"x"⟩, ⟨"y"⟩]⟩

/-- Claim C3, witness: the amended theorem applied at a concrete
two-paragraph document. -/
theorem read_pdf_segments_witness :
    read_pdf parseC3 streamC3 = Except.ok (joinLines ["x", "y"]) ∧
    stringSegments (joinLines ["x", "y"]) = ["x", "y"] :=
  read_pdf_segments parseC3 streamC3 ⟨[⟨"x"⟩, ⟨"y"⟩]⟩ rfl (by decide) (by decide)

/-- A stream for the C4 witness. -/
def streamC4 : FileStream := ⟨0, [3], 0⟩

/-- A parser behaviour producing a document with zero paragraphs. -/
def parseC4 : DocxParser := fun _ => ParseOutcome.ok ⟨[]⟩

/-- Claim C4: on a well-formed document with zero paragraphs, `read_pdf`
returns the empty string. -/
theorem read_pdf_empty_document (Document : DocxParser) (s : FileStream)
    (h : Document s.readBytes = ParseOutcome.ok ⟨[]⟩) :
    read_pdf Document s = Except.ok "" := by
  unfold read_pdf
  rw [h]
  rfl

/-- Claim C4, witness: the theorem applied at a concrete zero-paragraph
document. -/
theorem read_pdf_empty_document_witness :
    read_pdf parseC4 streamC4 = Except.ok "" :=
  read_pdf_empty_document parseC4 streamC4 rfl

/-- A stream for the C5 witness. -/
def streamC5 : FileStream := ⟨0, [4], 0⟩

/-- A parser behaviour for the C5 witness: an ordinary exception. -/
def parseC5 : DocxParser := fun _ => ParseOutcome.exn "Package not found"

/-- Claim C5: whenever parsing completes normally or fails inside the
ordinary exception class (no base-level failure escapes), `read_pdf`
returns a string, and that string is either the newline-joined
paragraph texts in order or the failure's description — no third kind of
result exists. -/
theorem read_pdf_always_string (Document : DocxParser) (s : FileStream)
    (h : ∀ m, Document s.readBytes ≠ ParseOutcome.baseExn m) :
    ∃ t, read_pdf Document s = Except.ok t ∧
      ((∃ doc, Document s.readBytes = ParseOutcome.ok doc ∧
          t = joinLines (doc.paragraphs.map Paragraph.text)) ∨
        (∃ m, Document s.readBytes = ParseOutcome.exn m ∧ t = m)) := by
  unfold read_pdf
  cases hd : Document s.readBytes with
  | ok doc => exact ⟨_, rfl, Or.inl ⟨doc, rfl, rfl⟩⟩
  | exn m => exact ⟨m, rfl, Or.inr ⟨m, rfl, rfl⟩⟩
  | baseExn m => exact absurd hd (h m)

/-- Claim C5, witness: the theorem applied at a concrete stream whose
parse fails with an ordinary exception. -/
theorem read_pdf_always_string_witness :
    ∃ t, read_pdf parseC5 streamC5 = Except.ok t ∧
      ((∃ doc, parseC5 streamC5.readBytes = ParseOutcome.ok doc ∧
          t = joinLines (doc.paragraphs.map Paragraph.text)) ∨
        (∃ m, parseC5 streamC5.readBytes = ParseOutcome.exn m ∧ t = m)) :=
  read_pdf_always_string parseC5 streamC5
    (fun m hm => ParseOutcome.noConfusion hm)

/-- A parser behaviour for the C6 witness. -/
def parseC6 : DocxParser := fun _ => ParseOutcome.ok ⟨[⟨"same"⟩]⟩

/-- Claim C6: `read_pdf` is deterministic — two independently constructed
unconsumed streams with identical byte content (their identity tags may
differ) produce identical outputs. -/
theorem read_pdf_deterministic (Document : DocxParser) (s1 s2 : FileStream)
    (hcontent : s1.content = s2.content) (h1 : s1.pos = 0) (h2 : s2.pos = 0) :
    read_pdf Document s1 = read_pdf Document s2 := by
  unfold read_pdf FileStream.readBytes
  rw [hcontent, h1, h2]

/-- Claim C6, witness: the theorem applied to two streams with distinct
identity tags and equal content. -/
theorem read_pdf_deterministic_witness :
    read_pdf parseC6 ⟨0, [1, 2], 0⟩ = read_pdf parseC6 ⟨1, [1, 2], 0⟩ :=
  read_pdf_deterministic parseC6 ⟨0, [1, 2], 0⟩ ⟨1, [1, 2], 0⟩ rfl rfl rfl

/-- A parser behaviour for the C7 witness. -/
def parseC7 : DocxParser := fun _ => ParseOutcome.exn "Package not found"

/-- Claim C7: the declared extension has no influence on the extraction
result — two accepted uploads (extension `"pdf"` or `"docx"`) with
identical byte content yield the same output string; behaviour is
determined purely by what the parser does with the bytes. -/
theorem read_pdf_extension_irrelevant (Document : DocxParser) (u1 u2 : UploadedFile)
    (hcontent : u1.stream.content = u2.stream.content)
    (h1 : u1.stream.pos = 0) (h2 : u2.stream.pos = 0)
    (he1 : u1.ext ∈ accepted_types) (he2 : u2.ext ∈ accepted_types) :
    app_handle Document u1 = app_handle Document u2 := by
  unfold app_handle
  rw [if_pos he1, if_pos he2]
  unfold read_pdf FileStream.readBytes
  rw [hcontent, h1, h2]

/-- Claim C7, witness: the theorem applied to the same bytes uploaded
once under extension `"pdf"` and once under extension `"docx"`. -/
theorem read_pdf_extension_irrelevant_witness :
    app_handle parseC7 ⟨"pdf", ⟨0, [9], 0⟩⟩ = app_handle parseC7 ⟨"docx", ⟨1, [9], 0⟩⟩ :=
  read_pdf_extension_irrelevant parseC7 ⟨"pdf", ⟨0, [9], 0⟩⟩ ⟨"docx", ⟨1, [9], 0⟩⟩
    rfl rfl rfl (by decide) (by decide)

/-- A parser behaviour for the C8 witness. -/
def parseC8 : DocxParser := fun _ => ParseOutcome.ok ⟨[⟨"once"⟩, ⟨"twice"⟩]⟩

/-- Claim C8: on an unconsumed stream that can be re-read (rewound after
the first call exhausts it), calling `read_pdf` a second time yields the
same string as the first call — a pure function of the stream content. -/
theorem read_pdf_idempotent (Document : DocxParser) (s : FileStream)
    (h : s.pos = 0) :
    (read_pdf_run Document (FileStream.rewind (read_pdf_run Document s).2)).1 =
      (read_pdf_run Document s).1 := by
  unfold read_pdf_run FileStream.rewind read_pdf FileStream.readBytes
  simp [h]

/-- Claim C8, witness: the theorem applied at a concrete unconsumed
stream. -/
theorem read_pdf_idempotent_witness :
    (read_pdf_run parseC8 (FileStream.rewind (read_pdf_run parseC8 ⟨0, [5, 6], 0⟩).2)).1 =
      (read_pdf_run parseC8 ⟨0, [5, 6], 0⟩).1 :=
  read_pdf_idempotent parseC8 ⟨0, [5, 6], 0⟩ rfl

/-- A stream for the C9 witness. -/
def streamC9 : FileStream := ⟨0, [7], 0⟩

/-- A parser behaviour that fails outside the ordinary exception class
(a base-level interpreter exit raised during parsing). -/
def parseC9 : DocxParser := fun _ => ParseOutcome.baseExn "SystemExit"

/-- Claim C9: the fail-soft boundary covers only the ordinary exception
class — a failure outside it raised during parsing is not caught by
`read_pdf` and propagates to the caller instead of being converted to a
string. -/
theorem read_pdf_base_escape (Document : DocxParser) (s : FileStream) (m : String)
    (h : Document s.readBytes = ParseOutcome.baseExn m) :
    read_pdf Document s = Except.error m := by
  unfold read_pdf
  rw [h]

/-- Claim C9, witness: the theorem applied at a concrete stream whose
parse raises a base-level failure. -/
theorem read_pdf_base_escape_witness :
    read_pdf parseC9 streamC9 = Except.error "SystemExit" :=
  read_pdf_base_escape parseC9 streamC9 "SystemExit" rfl

/-- A parser behaviour for C10: the empty byte stream parses as a
zero-paragraph document, while any non-empty stream fails with an
ordinary exception whose textual description is empty. -/
def parseC10 : DocxParser := fun bytes =>
  match bytes with
  | [] => ParseOutcome.ok ⟨[]⟩
  | _ :: _ => ParseOutcome.exn ""

/-- Claim C10: on a failing input whose exception has an empty textual
description, `read_pdf` returns the empty string — byte-for-byte
identical to its successful result on a zero-paragraph document, so an
empty return does not let the caller tell failure from an empty
well-formed document. -/
theorem read_pdf_empty_error_ambiguous :
    read_pdf parseC10 ⟨0, [0], 0⟩ = Except.ok "" ∧
    read_pdf parseC10 ⟨1, [], 0⟩ = Except.ok "" ∧
    read_pdf parseC10 ⟨0, [0], 0⟩ = read_pdf parseC10 ⟨1, [], 0⟩ :=
  ⟨rfl, rfl, rfl⟩
